import Mathlib

/-
Shallow embedding of the booking engine of George91369136/Bugalteria1
(server/storage.ts: route handlers for create/edit/cancel bookings,
merge-clients and cleanup-duplicates, plus the phone normalizer), together
with theorems settling the frozen claims about it.

Strings are modelled as Lean String; a stored SQL NULL text field is
modelled as the empty string wherever the source only ever tests it for
JS truthiness or compares it against non-empty values.  Nullable integer
columns (startHour, duration) are modelled as Option Int, with the JS
defaulting idiom `x || 0` made explicit.
-/

namespace Bugalteria

/-- Characters kept by the regex replace of [^0-9] in normalizePhone. -/
def isDigitCh (c : Char) : Bool := decide ('0' ≤ c) && decide (c ≤ '9')

/-- Core of normalizePhone on character lists: keep digits, then drop a
leading 7 or 8 from an 11-digit string (storage.ts lines 198-207). -/
def normCore (l : List Char) : List Char :=
  if (l.filter isDigitCh).head? = some '7' ∧ (l.filter isDigitCh).length = 11 then
    (l.filter isDigitCh).tail
  else if (l.filter isDigitCh).head? = some '8' ∧ (l.filter isDigitCh).length = 11 then
    (l.filter isDigitCh).tail
  else
    (l.filter isDigitCh)

/-- normalizePhone on a present string (the body after the null guard). -/
def normalizePhone (s : String) : String := String.mk (normCore s.data)

/-- The full normalizePhone, including the null guard `if (!phone) return ''`
for null/undefined/empty input. -/
def normalizePhoneOpt : Option String → String
  | none => ""
  | some s => if s = "" then "" else normalizePhone s

lemma filter_digit_fix (m : List Char) :
    (m.filter isDigitCh).filter isDigitCh = m.filter isDigitCh :=
  List.filter_eq_self.mpr (fun _ ha => (List.mem_filter.mp ha).2)

lemma filter_digit_tail_fix (m : List Char) :
    (m.filter isDigitCh).tail.filter isDigitCh = (m.filter isDigitCh).tail :=
  List.filter_eq_self.mpr
    (fun _ ha => (List.mem_filter.mp (List.mem_of_mem_tail ha)).2)

lemma normCore_idem (l : List Char) : normCore (normCore l) = normCore l := by
  by_cases h7 : (l.filter isDigitCh).head? = some '7' ∧ (l.filter isDigitCh).length = 11
  · have h1 : normCore l = (l.filter isDigitCh).tail := by
      unfold normCore; rw [if_pos h7]
    have hlen : (l.filter isDigitCh).tail.length = 10 := by
      rw [List.length_tail, h7.2]
    rw [h1]
    unfold normCore
    rw [filter_digit_tail_fix, hlen]
    simp
  · by_cases h8 : (l.filter isDigitCh).head? = some '8' ∧
        (l.filter isDigitCh).length = 11
    · have h1 : normCore l = (l.filter isDigitCh).tail := by
        unfold normCore; rw [if_neg h7, if_pos h8]
      have hlen : (l.filter isDigitCh).tail.length = 10 := by
        rw [List.length_tail, h8.2]
      rw [h1]
      unfold normCore
      rw [filter_digit_tail_fix, hlen]
      simp
    · have h1 : normCore l = l.filter isDigitCh := by
        unfold normCore; rw [if_neg h7, if_neg h8]
      rw [h1]
      unfold normCore
      rw [filter_digit_fix, if_neg h7, if_neg h8]

lemma normalizePhone_idem (s : String) :
    normalizePhone (normalizePhone s) = normalizePhone s := by
  unfold normalizePhone
  rw [show (String.mk (normCore s.data)).data = normCore s.data from rfl,
    normCore_idem]

/-- normalizePhone as called inside the engine on a string field that may
model a SQL NULL as "": the source guard `if (!phone) return ''`. -/
def normPhoneJs (s : String) : String := if s = "" then "" else normalizePhone s

/-- A registered user row (users table). -/
structure User where
  id : String
  name : String
  phone : String
deriving DecidableEq

/-- A booking row (bookings table); payment fields are carried by the
external payment collaborator and do not enter the claims. -/
structure Booking where
  id : String
  roomNumber : Int
  userId : String
  userName : String
  userPhone : String
  date : String
  startHour : Option Int
  duration : Option Int
  bookingType : String
  price : Int
deriving DecidableEq

instance : Inhabited Booking :=
  ⟨{ id := "", roomNumber := 0, userId := "", userName := "", userPhone := "",
     date := "", startHour := none, duration := none, bookingType := "", price := 0 }⟩

/-- A cancellation audit row (cancellations table). -/
structure Cancellation where
  id : String
  userId : String
  userName : String
  userPhone : String
  roomNumber : Int
  date : String
  bookingType : String
  price : Int
deriving DecidableEq

/-- The record store the routes read and write. -/
structure DB where
  users : List User
  bookings : List Booking
  cancellations : List Cancellation
deriving DecidableEq

/-- JS defaulting `x || 0` on a nullable integer column. -/
def orZero : Option Int → Int
  | none => 0
  | some v => v

/-- JS defaulting `x || d` on an optional integer request field (0 is falsy). -/
def jsOrInt : Option Int → Int → Int
  | none, d => d
  | some v, d => if v = 0 then d else v

/-- JS defaulting `x || d` on an optional string request field ("" is falsy). -/
def jsOrStr : Option String → String → String
  | none, d => d
  | some v, d => if v = "" then d else v

/-- getBookingsByRoom: rows matching roomNumber and date. -/
def getBookingsByRoom (db : DB) (room : Int) (date : String) : List Booking :=
  db.bookings.filter (fun b => b.roomNumber == room && b.date == date)

/-- getBookingsByDate: rows matching date. -/
def getBookingsByDate (db : DB) (date : String) : List Booking :=
  db.bookings.filter (fun b => b.date == date)

/-- getUserByPhone: first users row with the given phone. -/
def findUserByPhone (us : List User) (p : String) : Option User :=
  us.find? (fun u => u.phone == p)

/-- getBooking: first bookings row with the given id. -/
def findBooking (db : DB) (id : String) : Option Booking :=
  db.bookings.find? (fun b => b.id == id)

/-- RoomOccupiedWholeDay message of the create route (line 267). -/
def msgRoomOccupiedWholeDayCreate : String :=
  "На этот день уже есть бронирования в этом кабинете. Посуточная бронь невозможна."

/-- RoomReservedForDay message of the create route (line 272). -/
def msgRoomReservedForDayCreate : String :=
  "Кабинет забронирован на весь день. Почасовая бронь невозможна."

/-- TimeSlotOverlap message (lines 282 and 383). -/
def msgTimeSlotOverlap : String :=
  "Выбранное время пересекается с существующей бронью."

/-- ClientBookedElsewhere message (lines 292 and 393). -/
def msgClientBookedElsewhere : String :=
  "Этот клиент уже забронирован в другом кабинете на этот день."

/-- ClientTimeConflict message (lines 305 and 406). -/
def msgClientTimeConflict : String :=
  "Этот клиент уже занят в другом кабинете в это время."

/-- RoomOccupiedWholeDay message of the edit route (line 368). -/
def msgRoomOccupiedWholeDayEdit : String :=
  "На этот день уже есть бронирования в этом кабинете."

/-- RoomReservedForDay message of the edit route (line 373). -/
def msgRoomReservedForDayEdit : String :=
  "Кабинет забронирован на весь день."

/-- A create request after zod parsing (insertBookingSchema): userPhone ""
models an absent/null phone. -/
structure InsertBooking where
  roomNumber : Int
  userId : String
  userName : String
  userPhone : String
  date : String
  startHour : Option Int
  duration : Option Int
  bookingType : String
  price : Int
deriving DecidableEq

/-- Lines 250-261 of the create route: normalize the incoming phone and, if
it matches a registered user, overwrite the client triple with that user's
canonical values. -/
def resolveClient (db : DB) (d : InsertBooking) : InsertBooking :=
  let d1 := if d.userPhone ≠ "" then { d with userPhone := normPhoneJs d.userPhone } else d
  if d1.userPhone ≠ "" then
    match findUserByPhone db.users d1.userPhone with
    | some u => { d1 with userId := u.id, userName := u.name, userPhone := normPhoneJs u.phone }
    | none => d1
  else d1

/-- The half-open interval test `ns < bEnd && ne > bStart` of lines 276-280,
with the `|| 0` defaults on the stored nullable columns. -/
def overlapTest (ns ne : Int) (b : Booking) : Bool :=
  decide (ns < orZero b.startHour + orZero b.duration) && decide (ne > orZero b.startHour)

/-- Room/date admission check of the create route (lines 265-284). -/
def roomCheckCreate (existing : List Booking) (d : InsertBooking) : Option String :=
  if d.bookingType = "daily" then
    if 0 < existing.length then some msgRoomOccupiedWholeDayCreate else none
  else
    if existing.any (fun b => b.bookingType == "daily") then some msgRoomReservedForDayCreate
    else
      if existing.any
          (overlapTest (orZero d.startHour) (orZero d.startHour + orZero d.duration)) then
        some msgTimeSlotOverlap
      else none

/-- The userBookings filter of line 287: same userId, or same non-empty
normalized phone. -/
def clientFilterCreate (d : InsertBooking) (b : Booking) : Bool :=
  b.userId == d.userId || (!(d.userPhone == "") && b.userPhone == d.userPhone)

/-- Shared body of the cross-room client checks, identical in the create
route (lines 288-308) and the edit route (lines 389-409): on a non-empty
filtered set, a daily proposal rejects when any entry sits in a different
room; otherwise any different-room entry that is daily or passes the
overlap test rejects. -/
def clientCore (ub : List Booking) (room : Int) (btype : String) (ns ne : Int) :
    Option String :=
  if 0 < ub.length then
    if btype = "daily" then
      if ub.any (fun b => !(b.roomNumber == room)) then some msgClientBookedElsewhere
      else none
    else
      if ub.any (fun b =>
          if b.roomNumber == room then false
          else if b.bookingType == "daily" then true
          else overlapTest ns ne b) then
        some msgClientTimeConflict
      else none
  else none

/-- Cross-room client admission check of the create route (lines 286-308). -/
def clientCheckCreate (allDate : List Booking) (d : InsertBooking) : Option String :=
  clientCore (allDate.filter (clientFilterCreate d)) d.roomNumber d.bookingType
    (orZero d.startHour) (orZero d.startHour + orZero d.duration)

/-- The row inserted by createBooking on admission. -/
def mkBooking (newId : String) (d : InsertBooking) : Booking :=
  { id := newId, roomNumber := d.roomNumber, userId := d.userId, userName := d.userName,
    userPhone := d.userPhone, date := d.date, startHour := d.startHour,
    duration := d.duration, bookingType := d.bookingType, price := d.price }

/-- The POST /api/bookings route body (lines 242-316): resolve the client,
run the room/date check then the client check, and insert on admission;
a rejection returns before any write. -/
def createBooking (db : DB) (newId : String) (raw : InsertBooking) :
    DB × Except String Booking :=
  let d := resolveClient db raw
  match roomCheckCreate (getBookingsByRoom db d.roomNumber d.date) d with
  | some m => (db, .error m)
  | none =>
    match clientCheckCreate (getBookingsByDate db d.date) d with
    | some m => (db, .error m)
    | none =>
      let b := mkBooking newId d
      ({ db with bookings := db.bookings ++ [b] }, .ok b)

/-- Outcome tag of the edit route: 404 for an unknown id, 409 with a
message for a rejected admission check. -/
inductive EditErr
  | notFound
  | conflict (msg : String)
deriving DecidableEq

/-- The PUT /api/bookings/:id/edit request body (line 347): startHour and
duration distinguish an absent field (outer none) from a supplied null
(inner none) because the source tests them with `!== undefined`, while
roomNumber/date/bookingType use JS `||` defaulting. -/
structure EditRequest where
  roomNumber : Option Int
  date : Option String
  startHour : Option (Option Int)
  duration : Option (Option Int)
  bookingType : Option String
deriving DecidableEq

/-- Line 348: `roomNumber || booking.roomNumber`. -/
def editMergedRoom (b : Booking) (r : EditRequest) : Int := jsOrInt r.roomNumber b.roomNumber

/-- Line 349: `date || booking.date`. -/
def editMergedDate (b : Booking) (r : EditRequest) : String := jsOrStr r.date b.date

/-- Line 350: `bookingType || booking.bookingType`. -/
def editMergedType (b : Booking) (r : EditRequest) : String := jsOrStr r.bookingType b.bookingType

/-- Line 351: `startHour !== undefined ? startHour : booking.startHour`. -/
def editMergedStart (b : Booking) (r : EditRequest) : Option Int :=
  match r.startHour with
  | none => b.startHour
  | some v => v

/-- Line 352: `duration !== undefined ? duration : booking.duration`. -/
def editMergedDur (b : Booking) (r : EditRequest) : Option Int :=
  match r.duration with
  | none => b.duration
  | some v => v

/-- The resolved parameters an edit persists. -/
structure EditParams where
  room : Int
  date : String
  btype : String
  start : Option Int
  dur : Option Int
  price : Int
deriving DecidableEq

/-- Lines 348-361: merge supplied fields over stored ones, force
start=20/duration=24/price=3200 for daily, else price = duration * 200. -/
def editParams (b : Booking) (r : EditRequest) : EditParams :=
  if editMergedType b r = "daily" then
    { room := editMergedRoom b r, date := editMergedDate b r, btype := editMergedType b r,
      start := some 20, dur := some 24, price := 3200 }
  else
    { room := editMergedRoom b r, date := editMergedDate b r, btype := editMergedType b r,
      start := editMergedStart b r, dur := editMergedDur b r,
      price := orZero (editMergedDur b r) * 200 }

/-- Room/date admission check of the edit route (lines 366-385), run on the
room's bookings minus the booking being edited. -/
def roomCheckEdit (others : List Booking) (p : EditParams) : Option String :=
  if p.btype = "daily" then
    if 0 < others.length then some msgRoomOccupiedWholeDayEdit else none
  else
    if others.any (fun b => b.bookingType == "daily") then some msgRoomReservedForDayEdit
    else
      if others.any (overlapTest (orZero p.start) (orZero p.start + orZero p.dur)) then
        some msgTimeSlotOverlap
      else none

/-- The userBookings filter of line 388: exclude the booking itself, then
same userId or same non-empty stored phone as the booking being edited. -/
def clientFilterEdit (self : Booking) (b : Booking) : Bool :=
  !(b.id == self.id) &&
    (b.userId == self.userId || (!(self.userPhone == "") && b.userPhone == self.userPhone))

/-- Cross-room client admission check of the edit route (lines 387-409). -/
def clientCheckEdit (allDate : List Booking) (self : Booking) (p : EditParams) :
    Option String :=
  clientCore (allDate.filter (clientFilterEdit self)) p.room p.btype
    (orZero p.start) (orZero p.start + orZero p.dur)

/-- updateBookingDetails (storage.ts lines 113-115): set the six resolved
columns on every row with the given id. -/
def updateBookingDetails (bs : List Booking) (id : String) (p : EditParams) : List Booking :=
  bs.map (fun b =>
    if b.id == id then
      { b with
        roomNumber := p.room
        date := p.date
        startHour := p.start
        duration := p.dur
        bookingType := p.btype
        price := p.price }
    else b)

/-- The PUT /api/bookings/:id/edit route body (lines 340-417). -/
def editBooking (db : DB) (id : String) (r : EditRequest) : DB × Except EditErr Unit :=
  match findBooking db id with
  | none => (db, .error .notFound)
  | some booking =>
    let p := editParams booking r
    let others := (getBookingsByRoom db p.room p.date).filter (fun b => !(b.id == booking.id))
    match roomCheckEdit others p with
    | some m => (db, .error (.conflict m))
    | none =>
      match clientCheckEdit (getBookingsByDate db p.date) booking p with
      | some m => (db, .error (.conflict m))
      | none =>
        ({ db with bookings := updateBookingDetails db.bookings id p }, .ok ())

/-- The snapshot row written by the cancel route (lines 322-330); cid is
the id the store assigns to the new cancellation. -/
def snapOf (b : Booking) (cid : String) : Cancellation :=
  { id := cid, userId := b.userId, userName := b.userName, userPhone := b.userPhone,
    roomNumber := b.roomNumber, date := b.date, bookingType := b.bookingType,
    price := b.price }

/-- A primitive storage write performed by the cancel route. -/
inductive CancelOp
  | snap (c : Cancellation)
  | remove (id : String)
deriving DecidableEq

/-- The ordered list of storage writes the DELETE /api/bookings/:id route
performs (lines 318-338): snapshot first when the booking exists, then the
unconditional delete. -/
def cancelOps (db : DB) (id cid : String) : List CancelOp :=
  match findBooking db id with
  | some b => [.snap (snapOf b cid), .remove id]
  | none => [.remove id]

/-- Effect of one cancel-route write on the store. -/
def applyCancelOp (db : DB) : CancelOp → DB
  | .snap c => { db with cancellations := db.cancellations ++ [c] }
  | .remove i => { db with bookings := db.bookings.filter (fun b => !(b.id == i)) }

/-- Apply a sequence of cancel-route writes; a storage failure at write k
leaves the state of the first k writes. -/
def applyCancelOps (db : DB) (ops : List CancelOp) : DB := ops.foldl applyCancelOp db

/-- The DELETE /api/bookings/:id route when every write succeeds. -/
def cancelBooking (db : DB) (id cid : String) : DB := applyCancelOps db (cancelOps db id cid)

/-- updateBookingClient (storage.ts lines 109-111): set the client triple
on every row with the given id. -/
def updBookingClient (bs : List Booking) (id uid uname uphone : String) : List Booking :=
  bs.map (fun b =>
    if b.id == id then { b with userId := uid, userName := uname, userPhone := uphone } else b)

/-- updateCancellationClient (storage.ts lines 132-134). -/
def updCancClient (cs : List Cancellation) (id uid uname uphone : String) :
    List Cancellation :=
  cs.map (fun c =>
    if c.id == id then { c with userId := uid, userName := uname, userPhone := uphone } else c)

/-- One iteration of the merge loop over the bookings snapshot
(lines 733-738): rewrite rows with the source id and count the write. -/
def mergeStepB (src tgt tname phone : String) (p : List Booking × Nat) (b : Booking) :
    List Booking × Nat :=
  if b.userId == src then (updBookingClient p.1 b.id tgt tname phone, p.2 + 1) else p

/-- One iteration of the merge loop over the cancellations snapshot
(lines 739-744). -/
def mergeStepC (src tgt tname phone : String) (p : List Cancellation × Nat)
    (c : Cancellation) : List Cancellation × Nat :=
  if c.userId == src then (updCancClient p.1 c.id tgt tname phone, p.2 + 1) else p

/-- The POST /api/admin/merge-clients route body (lines 720-751): iterate
the snapshots taken at the start, rewriting matching rows in the store. -/
def mergeClients (db : DB) (src tgt tname tphone : String) : DB × Nat :=
  let phone := normPhoneJs tphone
  let pb := db.bookings.foldl (mergeStepB src tgt tname phone) (db.bookings, 0)
  let pc := db.cancellations.foldl (mergeStepC src tgt tname phone) (db.cancellations, pb.2)
  ({ db with bookings := pb.1, cancellations := pc.1 }, pc.2)

/-- The walk-in synthetic id test `userId?.startsWith("walk_in_")`. -/
def isWalkIn (s : String) : Bool := "walk_in_".data.isPrefixOf s.data

/-- Whitespace trimmed by the JS trim() calls of the dedup route. -/
def isJsWs (c : Char) : Bool := c == ' ' || c == '\t' || c == '\n' || c == '\r'

/-- JS trim(). -/
def jsTrim (s : String) : String :=
  String.mk (((s.data.dropWhile isJsWs).reverse.dropWhile isJsWs).reverse)

/-- ASCII lowering of one character (the names the claims touch are ASCII). -/
def lowerCh (c : Char) : Char :=
  if 'A' ≤ c ∧ c ≤ 'Z' then Char.ofNat (c.toNat + 32) else c

/-- JS toLowerCase(). -/
def jsLower (s : String) : String := String.mk (s.data.map lowerCh)

/-- The dedup grouping key `(userName || "").trim().toLowerCase()`. -/
def groupKey (name : String) : String := jsLower (jsTrim name)

/-- Insertion-ordered record update: push b onto the entry keyed k, adding
the key at the end on first sight (JS object insertion order). -/
def addToGroupsB : List (String × List Booking) → String → Booking →
    List (String × List Booking)
  | [], k, b => [(k, [b])]
  | (k0, l) :: rest, k, b =>
      if k0 == k then (k0, l ++ [b]) :: rest else (k0, l) :: addToGroupsB rest k b

/-- Lines 758-764: group the walk-in bookings of the snapshot by
trim-lowercased name, skipping empty names. -/
def buildGroupsB (bs : List Booking) : List (String × List Booking) :=
  bs.foldl (fun gs b =>
    if isWalkIn b.userId && !(groupKey b.userName == "") then
      addToGroupsB gs (groupKey b.userName) b
    else gs) []

/-- Line 770-771: the canonical member of a group — first with a non-empty
trimmed phone, else the first member. -/
def canonicalOf (l : List Booking) : Booking :=
  match l.find? (fun b => !(b.userPhone == "") && !(jsTrim b.userPhone == "")) with
  | some b => b
  | none => l.headD default

/-- Lines 776-780: one group member — skip when it already carries the
canonical triple, else write it through updateBookingClient and count. -/
def dedupGroupInner (cid cname cphone : String) (p : List Booking × Nat) (b : Booking) :
    List Booking × Nat :=
  if b.userId == cid && b.userName == cname && normPhoneJs b.userPhone == cphone then p
  else (updBookingClient p.1 b.id cid cname cphone, p.2 + 1)

/-- Lines 767-781: canonicalize one name group (skipped when it has at most
one member). -/
def dedupGroupStep (st : List Booking × Nat) (g : String × List Booking) :
    List Booking × Nat :=
  if g.2.length ≤ 1 then st
  else
    g.2.foldl
      (dedupGroupInner (canonicalOf g.2).userId (jsTrim (canonicalOf g.2).userName)
        (normPhoneJs (canonicalOf g.2).userPhone)) st

/-- The whole group-canonicalization pass over the booking groups. -/
def dedupGroupPass (bs : List Booking) (gs : List (String × List Booking)) :
    List Booking × Nat :=
  gs.foldl dedupGroupStep (bs, 0)

/-- Lines 785-791: one snapshot row of the phone-normalization pass; the
userId/userName written back are the snapshot values. -/
def dedupPhoneStep (p : List Booking × Nat) (b : Booking) : List Booking × Nat :=
  if !(b.userPhone == "") && !(normPhoneJs b.userPhone == b.userPhone) then
    (updBookingClient p.1 b.id b.userId b.userName (normPhoneJs b.userPhone), p.2 + 1)
  else p

/-- Lines 784-792: normalize stored phones in place — iterating the
snapshot taken at the start, so the userId/userName written back are the
snapshot values, not the ones produced by the group pass. -/
def phonePass (st : List Booking) (snapshot : List Booking) (n : Nat) :
    List Booking × Nat :=
  snapshot.foldl dedupPhoneStep (st, n)

/-- Insertion-ordered record update for cancellation groups. -/
def addToGroupsC : List (String × List Cancellation) → String → Cancellation →
    List (String × List Cancellation)
  | [], k, c => [(k, [c])]
  | (k0, l) :: rest, k, c =>
      if k0 == k then (k0, l ++ [c]) :: rest else (k0, l) :: addToGroupsC rest k c

/-- Lines 796-803: group walk-in cancellations by trim-lowercased name. -/
def buildGroupsC (cs : List Cancellation) : List (String × List Cancellation) :=
  cs.foldl (fun gs c =>
    if isWalkIn c.userId && !(groupKey c.userName == "") then
      addToGroupsC gs (groupKey c.userName) c
    else gs) []

/-- JS `groups[name]` lookup. -/
def lookupGroupB (gs : List (String × List Booking)) (k : String) :
    Option (List Booking) :=
  match gs.find? (fun g => g.1 == k) with
  | some g => some g.2
  | none => none

/-- Lines 810-821: one cancellation of a matched group — a member with a
truthy phone is rewritten when its phone is unnormalized or its userId is
not the canonical one; a member with a falsy phone is rewritten
unconditionally. -/
def cancInner (canonical : Booking) (p : List Cancellation × Nat) (c : Cancellation) :
    List Cancellation × Nat :=
  if !(c.userPhone == "") then
    if !(normPhoneJs c.userPhone == c.userPhone) || !(c.userId == canonical.userId) then
      (updCancClient p.1 c.id canonical.userId (jsTrim canonical.userName)
        (normPhoneJs canonical.userPhone), p.2 + 1)
    else p
  else
    (updCancClient p.1 c.id canonical.userId (jsTrim canonical.userName)
      (normPhoneJs canonical.userPhone), p.2 + 1)

/-- Lines 806-823: rewrite one cancellation name group to the canonical
identity of the booking group with the same name, when one exists. -/
def cancPassStep (gs : List (String × List Booking))
    (p : List Cancellation × Nat) (g : String × List Cancellation) :
    List Cancellation × Nat :=
  match lookupGroupB gs g.1 with
  | none => p
  | some l => g.2.foldl (cancInner (canonicalOf l)) p

/-- The whole cancellation pass over the cancellation groups. -/
def cancPass (cs : List Cancellation) (gs : List (String × List Booking))
    (cgs : List (String × List Cancellation)) (n : Nat) : List Cancellation × Nat :=
  cgs.foldl (cancPassStep gs) (cs, n)

/-- The POST /api/admin/cleanup-duplicates route body (lines 753-830):
snapshot the bookings, canonicalize walk-in name groups, normalize phones
from the stale snapshot, then rewrite matching cancellation groups;
returns the store and the shared updatedCount. -/
def cleanupDuplicates (db : DB) : DB × Nat :=
  let snapshot := db.bookings
  let gs := buildGroupsB snapshot
  let p1 := dedupGroupPass db.bookings gs
  let p2 := phonePass p1.1 snapshot p1.2
  let cSnap := db.cancellations
  let cgs := buildGroupsC cSnap
  let p3 := cancPass cSnap gs cgs p2.2
  ({ db with bookings := p2.1, cancellations := p3.1 }, p3.2)

lemma any_daily_true {l : List Booking} (h : ∃ b ∈ l, b.bookingType = "daily") :
    l.any (fun b => b.bookingType == "daily") = true := by
  rcases h with ⟨b, hb, hbt⟩
  exact List.any_eq_true.mpr ⟨b, hb, by simp [hbt]⟩

lemma any_daily_false {l : List Booking} (h : ∀ b ∈ l, b.bookingType ≠ "daily") :
    l.any (fun b => b.bookingType == "daily") = false := by
  rw [List.any_eq_false]
  intro b hb
  simpa using h b hb

lemma any_overlap_true {l : List Booking} {ns ne : Int}
    (h : ∃ b ∈ l, overlapTest ns ne b = true) :
    l.any (overlapTest ns ne) = true :=
  List.any_eq_true.mpr h

lemma any_overlap_false {l : List Booking} {ns ne : Int}
    (h : ∀ b ∈ l, overlapTest ns ne b = false) :
    l.any (overlapTest ns ne) = false := by
  rw [List.any_eq_false]
  intro b hb
  simp [h b hb]

lemma createBooking_error_fst (db : DB) (nid : String) (d : InsertBooking) (m : String)
    (h : (createBooking db nid d).2 = Except.error m) :
    (createBooking db nid d).1 = db := by
  unfold createBooking at h ⊢
  rcases hr : roomCheckCreate
      (getBookingsByRoom db (resolveClient db d).roomNumber (resolveClient db d).date)
      (resolveClient db d) with _ | m1
  · rcases hc : clientCheckCreate (getBookingsByDate db (resolveClient db d).date)
        (resolveClient db d) with _ | m2
    · simp [hr, hc] at h
    · simp [hr, hc]
  · simp [hr]

lemma editBooking_error_fst (db : DB) (id : String) (r : EditRequest) (e : EditErr)
    (h : (editBooking db id r).2 = Except.error e) :
    (editBooking db id r).1 = db := by
  unfold editBooking at h ⊢
  rcases hf : findBooking db id with _ | bk
  · simp [hf]
  · rcases hr : roomCheckEdit
        ((getBookingsByRoom db (editParams bk r).room (editParams bk r).date).filter
          (fun b => !(b.id == bk.id))) (editParams bk r) with _ | m1
    · rcases hc : clientCheckEdit (getBookingsByDate db (editParams bk r).date) bk
          (editParams bk r) with _ | m2
      · simp [hf, hr, hc] at h
      · simp [hf, hr, hc]
    · simp [hf, hr]

/-- C7: the phone normalizer is idempotent, maps the three sample inputs to
the ten-digit string 9123456789, and returns the empty string (never a null
value, which the return type excludes) on absent or empty input. -/
theorem normalizePhone_props :
    (∀ x : String, normalizePhone (normalizePhone x) = normalizePhone x)
    ∧ normalizePhone "+7 (912) 345-67-89" = "9123456789"
    ∧ normalizePhone "89123456789" = "9123456789"
    ∧ normalizePhone "79123456789" = "9123456789"
    ∧ normalizePhoneOpt none = ""
    ∧ normalizePhoneOpt (some "") = "" := by
  refine ⟨normalizePhone_idem, by decide, by decide, by decide, rfl, by decide⟩

/-- C1: the room/date admission check, in create and in edit (where the
booking's own id is excluded from the comparison set): a daily proposal
against a non-empty remaining set is rejected RoomOccupiedWholeDay; an
hourly proposal is rejected RoomReservedForDay when a remaining booking is
daily, rejected TimeSlotOverlap when a remaining hourly booking passes the
half-open overlap test, and passes otherwise; a rejection leaves the store
untouched. -/
theorem roomDateCheck_props (existing : List Booking) (d : InsertBooking) (p : EditParams) :
    ((d.bookingType = "daily" → existing ≠ [] →
        roomCheckCreate existing d = some msgRoomOccupiedWholeDayCreate)
      ∧ (d.bookingType = "hourly" → (∃ b ∈ existing, b.bookingType = "daily") →
        roomCheckCreate existing d = some msgRoomReservedForDayCreate)
      ∧ (d.bookingType = "hourly" → (∀ b ∈ existing, b.bookingType ≠ "daily") →
        (∃ b ∈ existing, b.bookingType = "hourly" ∧
          overlapTest (orZero d.startHour) (orZero d.startHour + orZero d.duration) b = true) →
        roomCheckCreate existing d = some msgTimeSlotOverlap)
      ∧ (d.bookingType = "hourly" → (∀ b ∈ existing, b.bookingType ≠ "daily") →
        (∀ b ∈ existing,
          overlapTest (orZero d.startHour) (orZero d.startHour + orZero d.duration) b = false) →
        roomCheckCreate existing d = none))
    ∧ ((p.btype = "daily" → existing ≠ [] →
        roomCheckEdit existing p = some msgRoomOccupiedWholeDayEdit)
      ∧ (p.btype = "hourly" → (∃ b ∈ existing, b.bookingType = "daily") →
        roomCheckEdit existing p = some msgRoomReservedForDayEdit)
      ∧ (p.btype = "hourly" → (∀ b ∈ existing, b.bookingType ≠ "daily") →
        (∃ b ∈ existing, b.bookingType = "hourly" ∧
          overlapTest (orZero p.start) (orZero p.start + orZero p.dur) b = true) →
        roomCheckEdit existing p = some msgTimeSlotOverlap)
      ∧ (p.btype = "hourly" → (∀ b ∈ existing, b.bookingType ≠ "daily") →
        (∀ b ∈ existing,
          overlapTest (orZero p.start) (orZero p.start + orZero p.dur) b = false) →
        roomCheckEdit existing p = none))
    ∧ (∀ db nid m, (createBooking db nid d).2 = Except.error m →
        (createBooking db nid d).1 = db)
    ∧ (∀ db id r e, (editBooking db id r).2 = Except.error e →
        (editBooking db id r).1 = db) := by
  refine ⟨⟨?_, ?_, ?_, ?_⟩, ⟨?_, ?_, ?_, ?_⟩, ?_, ?_⟩
  · intro ht hne
    unfold roomCheckCreate
    rw [if_pos ht, if_pos (by simpa [List.length_pos] using hne)]
  · intro ht hd
    unfold roomCheckCreate
    rw [if_neg (by simp [ht]), if_pos (any_daily_true hd)]
  · intro ht hnd hov
    unfold roomCheckCreate
    rcases hov with ⟨b, hb, _, hovb⟩
    rw [if_neg (by simp [ht]), if_neg (by simp [any_daily_false hnd]),
      if_pos (any_overlap_true ⟨b, hb, hovb⟩)]
  · intro ht hnd hnov
    unfold roomCheckCreate
    rw [if_neg (by simp [ht]), if_neg (by simp [any_daily_false hnd]),
      if_neg (by simp [any_overlap_false hnov])]
  · intro ht hne
    unfold roomCheckEdit
    rw [if_pos ht, if_pos (by simpa [List.length_pos] using hne)]
  · intro ht hd
    unfold roomCheckEdit
    rw [if_neg (by simp [ht]), if_pos (any_daily_true hd)]
  · intro ht hnd hov
    unfold roomCheckEdit
    rcases hov with ⟨b, hb, _, hovb⟩
    rw [if_neg (by simp [ht]), if_neg (by simp [any_daily_false hnd]),
      if_pos (any_overlap_true ⟨b, hb, hovb⟩)]
  · intro ht hnd hnov
    unfold roomCheckEdit
    rw [if_neg (by simp [ht]), if_neg (by simp [any_daily_false hnd]),
      if_neg (by simp [any_overlap_false hnov])]
  · intro db nid m h
    exact createBooking_error_fst db nid d m h
  · intro db id r e h
    exact editBooking_error_fst db id r e h

/-- A stored daily booking used as a concrete admission-check input. -/
def exDailyB : Booking :=
  { id := "ed", roomNumber := 1, userId := "u9", userName := "Y", userPhone := "",
    date := "D", startHour := some 20, duration := some 24, bookingType := "daily",
    price := 3200 }

/-- A stored hourly booking (10:00-12:00) used as a concrete input. -/
def exHourlyB : Booking :=
  { id := "eh", roomNumber := 1, userId := "u8", userName := "Z", userPhone := "",
    date := "D", startHour := some 20, duration := some 4, bookingType := "hourly",
    price := 800 }

/-- A concrete hourly create request (11:00-12:00, room 1). -/
def exReqH : InsertBooking :=
  { roomNumber := 1, userId := "u1", userName := "X", userPhone := "", date := "D",
    startHour := some 22, duration := some 2, bookingType := "hourly", price := 400 }

/-- A concrete daily create request for the same room/date. -/
def exReqD : InsertBooking := { exReqH with bookingType := "daily", price := 3200 }

/-- Concrete edit parameters (hourly, 11:00-12:00, room 1). -/
def exParamsH : EditParams :=
  { room := 1, date := "D", btype := "hourly", start := some 22, dur := some 2,
    price := 400 }

theorem roomDateCheck_props_witness :
    roomCheckCreate [exHourlyB] exReqD = some msgRoomOccupiedWholeDayCreate
    ∧ roomCheckCreate [exDailyB] exReqH = some msgRoomReservedForDayCreate
    ∧ roomCheckCreate [exHourlyB] exReqH = some msgTimeSlotOverlap
    ∧ roomCheckCreate [] exReqH = none
    ∧ roomCheckEdit [exHourlyB] exParamsH = some msgTimeSlotOverlap := by
  refine ⟨(roomDateCheck_props [exHourlyB] exReqD exParamsH).1.1 rfl (by decide),
    (roomDateCheck_props [exDailyB] exReqH exParamsH).1.2.1 rfl ⟨exDailyB, by decide, rfl⟩,
    (roomDateCheck_props [exHourlyB] exReqH exParamsH).1.2.2.1 rfl (by decide)
      ⟨exHourlyB, by decide, rfl, by decide⟩,
    (roomDateCheck_props [] exReqH exParamsH).1.2.2.2 rfl (by decide) (by decide),
    (roomDateCheck_props [exHourlyB] exReqH exParamsH).2.1.2.2.1 rfl (by decide)
      ⟨exHourlyB, by decide, rfl, by decide⟩⟩

/-- The client with a daily booking in room 1 on date D. -/
def c2DailyElse : Booking :=
  { id := "bd2", roomNumber := 1, userId := "uZ", userName := "Z", userPhone := "",
    date := "D", startHour := some 20, duration := some 24, bookingType := "daily",
    price := 3200 }

/-- Store holding only that daily booking. -/
def c2Db : DB := { users := [], bookings := [c2DailyElse], cancellations := [] }

/-- The same client proposing an hourly booking in room 2 on date D. -/
def c2Req : InsertBooking :=
  { roomNumber := 2, userId := "uZ", userName := "Z", userPhone := "", date := "D",
    startHour := some 20, duration := some 2, bookingType := "hourly", price := 400 }

/-- C2 counterexample: for an hourly proposal whose client holds a daily
booking in another room on the same date, the create route rejects with the
ClientTimeConflict message, not the ClientBookedElsewhere message the claim
names for this case. -/
theorem clientDailyElsewhere_reason_cex :
    (createBooking c2Db "c4" c2Req).2 = Except.error msgClientTimeConflict
    ∧ msgClientTimeConflict ≠ msgClientBookedElsewhere := by
  exact ⟨rfl, by decide⟩

lemma clientCore_conflict_of_daily {ub : List Booking} {room : Int} {btype : String}
    {ns ne : Int} {b : Booking} (ht : btype ≠ "daily") (hb : b ∈ ub)
    (hroom : b.roomNumber ≠ room) (hdaily : b.bookingType = "daily") :
    clientCore ub room btype ns ne = some msgClientTimeConflict := by
  unfold clientCore
  rw [if_pos (List.length_pos.mpr (List.ne_nil_of_mem hb)), if_neg ht,
    if_pos (List.any_eq_true.mpr ⟨b, hb, by simp [hroom, hdaily]⟩)]

lemma clientCore_conflict_of_overlap {ub : List Booking} {room : Int} {btype : String}
    {ns ne : Int} {b : Booking} (ht : btype ≠ "daily") (hb : b ∈ ub)
    (hroom : b.roomNumber ≠ room) (hov : overlapTest ns ne b = true) :
    clientCore ub room btype ns ne = some msgClientTimeConflict := by
  unfold clientCore
  rw [if_pos (List.length_pos.mpr (List.ne_nil_of_mem hb)), if_neg ht,
    if_pos (List.any_eq_true.mpr ⟨b, hb, by simp [hroom, hov]⟩)]

lemma clientCore_pass {ub : List Booking} {room : Int} {btype : String} {ns ne : Int}
    (ht : btype ≠ "daily")
    (h : ∀ b ∈ ub, b.roomNumber ≠ room →
      b.bookingType ≠ "daily" ∧ overlapTest ns ne b = false) :
    clientCore ub room btype ns ne = none := by
  unfold clientCore
  by_cases hlen : 0 < ub.length
  · have hany : ub.any (fun b =>
        if b.roomNumber == room then false
        else if b.bookingType == "daily" then true
        else overlapTest ns ne b) = false := by
      rw [List.any_eq_false]
      intro b hb
      by_cases hroom : b.roomNumber = room
      · simp [hroom]
      · rcases h b hb hroom with ⟨hnd, hnov⟩
        simp [hroom, hnd, hnov]
    rw [if_pos hlen, if_neg ht, if_neg (by rw [hany]; simp)]
  · rw [if_neg hlen]

/-- Client X's room-1 hourly booking of Scenario C (10:00-12:00, date D). -/
def scenCBooked : Booking :=
  { id := "c1", roomNumber := 1, userId := "uX", userName := "X", userPhone := "",
    date := "D", startHour := some 20, duration := some 4, bookingType := "hourly",
    price := 800 }

/-- Store holding client X's Scenario C booking. -/
def scenCDb : DB := { users := [], bookings := [scenCBooked], cancellations := [] }

/-- Scenario C overlapping proposal: room 2, start 22, duration 2. -/
def scenCReqOverlap : InsertBooking :=
  { roomNumber := 2, userId := "uX", userName := "X", userPhone := "", date := "D",
    startHour := some 22, duration := some 2, bookingType := "hourly", price := 400 }

/-- Scenario C non-overlapping proposal: room 2, start 24, duration 2. -/
def scenCReqFree : InsertBooking := { scenCReqOverlap with startHour := some 24 }

/-- C2 amended: for an hourly proposal, a same-client daily booking in a
different room on the same date is rejected with reason ClientTimeConflict
(the same reason as an interval overlap; ClientBookedElsewhere is issued
only for daily proposals), an overlapping same-client hourly booking in a
different room is rejected ClientTimeConflict, and a non-overlapping hourly
booking in another room causes no rejection; identical behavior in the edit
route with the booking's own id excluded; Scenario C behaves as stated with
reason ClientTimeConflict. -/
theorem clientCheck_props (allDate : List Booking) (d : InsertBooking)
    (self : Booking) (p : EditParams) :
    (d.bookingType = "hourly" →
      ((∃ b ∈ allDate, clientFilterCreate d b = true ∧ b.roomNumber ≠ d.roomNumber ∧
          b.bookingType = "daily") →
        clientCheckCreate allDate d = some msgClientTimeConflict)
      ∧ ((∃ b ∈ allDate, clientFilterCreate d b = true ∧ b.roomNumber ≠ d.roomNumber ∧
          overlapTest (orZero d.startHour) (orZero d.startHour + orZero d.duration) b
            = true) →
        clientCheckCreate allDate d = some msgClientTimeConflict)
      ∧ ((∀ b ∈ allDate, clientFilterCreate d b = true → b.roomNumber ≠ d.roomNumber →
          b.bookingType ≠ "daily" ∧
            overlapTest (orZero d.startHour) (orZero d.startHour + orZero d.duration) b
              = false) →
        clientCheckCreate allDate d = none))
    ∧ (p.btype = "hourly" →
      ((∃ b ∈ allDate, clientFilterEdit self b = true ∧ b.roomNumber ≠ p.room ∧
          b.bookingType = "daily") →
        clientCheckEdit allDate self p = some msgClientTimeConflict)
      ∧ ((∃ b ∈ allDate, clientFilterEdit self b = true ∧ b.roomNumber ≠ p.room ∧
          overlapTest (orZero p.start) (orZero p.start + orZero p.dur) b = true) →
        clientCheckEdit allDate self p = some msgClientTimeConflict)
      ∧ ((∀ b ∈ allDate, clientFilterEdit self b = true → b.roomNumber ≠ p.room →
          b.bookingType ≠ "daily" ∧
            overlapTest (orZero p.start) (orZero p.start + orZero p.dur) b = false) →
        clientCheckEdit allDate self p = none))
    ∧ ((createBooking c2Db "c4" c2Req).2 = Except.error msgClientTimeConflict)
    ∧ ((createBooking scenCDb "c2" scenCReqOverlap).2 = Except.error msgClientTimeConflict)
    ∧ (∃ b, (createBooking scenCDb "c3" scenCReqFree).2 = Except.ok b) := by
  refine ⟨?_, ?_, rfl, rfl, ⟨_, rfl⟩⟩
  · intro ht
    have htne : d.bookingType ≠ "daily" := by simp [ht]
    refine ⟨?_, ?_, ?_⟩
    · rintro ⟨b, hb, hfil, hroom, hdaily⟩
      exact clientCore_conflict_of_daily htne (List.mem_filter.mpr ⟨hb, hfil⟩) hroom hdaily
    · rintro ⟨b, hb, hfil, hroom, hov⟩
      exact clientCore_conflict_of_overlap htne (List.mem_filter.mpr ⟨hb, hfil⟩) hroom hov
    · intro h
      refine clientCore_pass htne ?_
      intro b hb hroom
      rcases List.mem_filter.mp hb with ⟨hmem, hfil⟩
      exact h b hmem hfil hroom
  · intro ht
    have htne : p.btype ≠ "daily" := by simp [ht]
    refine ⟨?_, ?_, ?_⟩
    · rintro ⟨b, hb, hfil, hroom, hdaily⟩
      exact clientCore_conflict_of_daily htne (List.mem_filter.mpr ⟨hb, hfil⟩) hroom hdaily
    · rintro ⟨b, hb, hfil, hroom, hov⟩
      exact clientCore_conflict_of_overlap htne (List.mem_filter.mpr ⟨hb, hfil⟩) hroom hov
    · intro h
      refine clientCore_pass htne ?_
      intro b hb hroom
      rcases List.mem_filter.mp hb with ⟨hmem, hfil⟩
      exact h b hmem hfil hroom

theorem clientCheck_props_witness :
    clientCheckCreate [c2DailyElse] c2Req = some msgClientTimeConflict
    ∧ clientCheckCreate [scenCBooked] scenCReqOverlap = some msgClientTimeConflict
    ∧ clientCheckCreate [scenCBooked] scenCReqFree = none := by
  refine ⟨((clientCheck_props [c2DailyElse] c2Req default exParamsH).1 rfl).1
      ⟨c2DailyElse, by decide, by decide, by decide, rfl⟩,
    ((clientCheck_props [scenCBooked] scenCReqOverlap default exParamsH).1 rfl).2.1
      ⟨scenCBooked, by decide, by decide, by decide, by decide⟩,
    ((clientCheck_props [scenCBooked] scenCReqFree default exParamsH).1 rfl).2.2
      (by decide)⟩

lemma resolveClient_sched (db : DB) (d : InsertBooking) :
    (resolveClient db d).startHour = d.startHour ∧
    (resolveClient db d).duration = d.duration ∧
    (resolveClient db d).roomNumber = d.roomNumber ∧
    (resolveClient db d).date = d.date ∧
    (resolveClient db d).bookingType = d.bookingType ∧
    (resolveClient db d).price = d.price := by
  unfold resolveClient
  dsimp only
  split
  · split
    · split
      · exact ⟨rfl, rfl, rfl, rfl, rfl, rfl⟩
      · exact ⟨rfl, rfl, rfl, rfl, rfl, rfl⟩
    · exact ⟨rfl, rfl, rfl, rfl, rfl, rfl⟩
  · exact ⟨rfl, rfl, rfl, rfl, rfl, rfl⟩

/-- The empty store. -/
def dbEmpty : DB := { users := [], bookings := [], cancellations := [] }

/-- An out-of-window create request: hourly, startHour 5 (02:30, before the
10:00 opening) and duration 1 (below the 2-block minimum). -/
def c3Req : InsertBooking :=
  { roomNumber := 1, userId := "u1", userName := "X", userPhone := "", date := "D",
    startHour := some 5, duration := some 1, bookingType := "hourly", price := 200 }

/-- C3 counterexample: the create route accepts and persists an hourly
booking with duration 1 < 2 and startHour 5 outside [20, 43]; no
InvalidSchedule failure exists in the code. -/
theorem schedule_window_cex :
    (createBooking dbEmpty "x1" c3Req).2 = Except.ok (mkBooking "x1" c3Req)
    ∧ (createBooking dbEmpty "x1" c3Req).1.bookings = [mkBooking "x1" c3Req]
    ∧ (mkBooking "x1" c3Req).bookingType = "hourly"
    ∧ orZero (mkBooking "x1" c3Req).duration < 2
    ∧ orZero (mkBooking "x1" c3Req).startHour < 20 := by
  exact ⟨rfl, rfl, rfl, by decide, by decide⟩

/-- C3 amended: neither create nor edit performs any schedule validation —
whenever the room/date and client conflict checks pass, the request is
persisted with exactly the requested startHour and duration, whatever their
values; no InvalidSchedule rejection exists. -/
theorem no_schedule_validation (db : DB) (nid : String) (d : InsertBooking)
    (hc1 : roomCheckCreate
      (getBookingsByRoom db (resolveClient db d).roomNumber (resolveClient db d).date)
      (resolveClient db d) = none)
    (hc2 : clientCheckCreate (getBookingsByDate db (resolveClient db d).date)
      (resolveClient db d) = none) :
    ((createBooking db nid d).2 = Except.ok (mkBooking nid (resolveClient db d))
      ∧ (createBooking db nid d).1.bookings =
          db.bookings ++ [mkBooking nid (resolveClient db d)]
      ∧ (mkBooking nid (resolveClient db d)).startHour = d.startHour
      ∧ (mkBooking nid (resolveClient db d)).duration = d.duration)
    ∧ (∀ (id : String) (r : EditRequest) (bk : Booking),
        findBooking db id = some bk →
        roomCheckEdit ((getBookingsByRoom db (editParams bk r).room
            (editParams bk r).date).filter (fun b => !(b.id == bk.id)))
          (editParams bk r) = none →
        clientCheckEdit (getBookingsByDate db (editParams bk r).date) bk
          (editParams bk r) = none →
        (editBooking db id r).2 = Except.ok ()
        ∧ (editBooking db id r).1.bookings =
            updateBookingDetails db.bookings id (editParams bk r)) := by
  constructor
  · refine ⟨?_, ?_, (resolveClient_sched db d).1, (resolveClient_sched db d).2.1⟩
    · simp [createBooking, hc1, hc2]
    · simp [createBooking, hc1, hc2]
  · intro id r bk hf hr hc
    constructor
    · simp [editBooking, hf, hr, hc]
    · simp [editBooking, hf, hr, hc]

theorem no_schedule_validation_witness :
    (createBooking dbEmpty "x2" c3Req).2 =
      Except.ok (mkBooking "x2" (resolveClient dbEmpty c3Req))
    ∧ orZero c3Req.duration < 2 ∧ orZero c3Req.startHour < 20 :=
  ⟨(no_schedule_validation dbEmpty "x2" c3Req rfl rfl).1.1, by decide, by decide⟩

lemma editParams_price (bk : Booking) (r : EditRequest) :
    ((editParams bk r).btype = "daily" →
      (editParams bk r).start = some 20 ∧ (editParams bk r).dur = some 24 ∧
        (editParams bk r).price = 3200)
    ∧ ((editParams bk r).btype ≠ "daily" →
      (editParams bk r).price = orZero (editParams bk r).dur * 200) := by
  unfold editParams
  by_cases h : editMergedType bk r = "daily"
  · rw [if_pos h]
    exact ⟨fun _ => ⟨rfl, rfl, rfl⟩, fun hne => absurd h hne⟩
  · rw [if_neg h]
    exact ⟨fun hd => absurd hd h, fun _ => rfl⟩

lemma editBooking_ok_bookings (db : DB) (id : String) (r : EditRequest) (bk : Booking)
    (hf : findBooking db id = some bk)
    (hok : (editBooking db id r).2 = Except.ok ()) :
    (editBooking db id r).1.bookings = updateBookingDetails db.bookings id (editParams bk r) := by
  unfold editBooking at hok ⊢
  rcases hr : roomCheckEdit ((getBookingsByRoom db (editParams bk r).room
      (editParams bk r).date).filter (fun b => !(b.id == bk.id))) (editParams bk r)
    with _ | m1
  · rcases hc : clientCheckEdit (getBookingsByDate db (editParams bk r).date) bk
        (editParams bk r) with _ | m2
    · simp [hf, hr, hc]
    · rw [hf] at hok
      simp only [hr, hc] at hok
      exact absurd hok (by simp)
  · rw [hf] at hok
    simp only [hr] at hok
    exact absurd hok (by simp)

/-- C4: on every accepted edit, the persisted row with the edited id has
startHour 20, duration 24 and price 3200 when its type is daily, and price
duration * 200 otherwise; the edit request (line 347) carries no price
field, so the stored price is always this recomputation. -/
theorem edit_price_recompute (db : DB) (id : String) (r : EditRequest) (bk : Booking)
    (hf : findBooking db id = some bk)
    (hok : (editBooking db id r).2 = Except.ok ()) :
    ∀ b ∈ (editBooking db id r).1.bookings, b.id = id →
      (b.bookingType = "daily" →
        b.startHour = some 20 ∧ b.duration = some 24 ∧ b.price = 3200)
      ∧ (b.bookingType ≠ "daily" → b.price = orZero b.duration * 200) := by
  intro b hb hbid
  rw [editBooking_ok_bookings db id r bk hf hok] at hb
  rcases List.mem_map.mp hb with ⟨a, _, hab⟩
  by_cases ha : a.id = id
  · rw [if_pos (by simpa using ha)] at hab
    subst hab
    simpa using editParams_price bk r
  · rw [if_neg (by simpa using ha)] at hab
    subst hab
    exact absurd hbid ha

/-- A stored hourly booking edited in concrete instances. -/
def c4Bk : Booking :=
  { id := "b1", roomNumber := 1, userId := "u1", userName := "N", userPhone := "",
    date := "D", startHour := some 22, duration := some 2, bookingType := "hourly",
    price := 400 }

/-- Store holding only that booking. -/
def c4Db : DB := { users := [], bookings := [c4Bk], cancellations := [] }

/-- An edit request switching the booking to daily, supplying nothing else. -/
def c4Req : EditRequest :=
  { roomNumber := none, date := none, startHour := none, duration := none,
    bookingType := some "daily" }

/-- The row that edit persists for c4Bk under c4Req. -/
def c4Updated : Booking :=
  { c4Bk with
    startHour := some 20
    duration := some 24
    bookingType := "daily"
    price := 3200 }

theorem edit_price_recompute_witness :
    c4Updated.startHour = some 20 ∧ c4Updated.duration = some 24 ∧ c4Updated.price = 3200 :=
  (edit_price_recompute c4Db "b1" c4Req c4Bk rfl rfl c4Updated (by decide) rfl).1 rfl

/-- The edit request that supplies no field at all. -/
def rqNoneE : EditRequest :=
  { roomNumber := none, date := none, startHour := none, duration := none,
    bookingType := none }

/-- C5: an edit of an unknown id returns NotFound and leaves the store
unchanged; every field omitted from the request defaults to the stored
booking's value in the merge step; and any rejected edit leaves the store
exactly as it was. -/
theorem edit_defaults_and_rollback (db : DB) (id : String) (r : EditRequest) (bk : Booking) :
    (findBooking db id = none → editBooking db id r = (db, Except.error EditErr.notFound))
    ∧ (r.roomNumber = none → editMergedRoom bk r = bk.roomNumber)
    ∧ (r.date = none → editMergedDate bk r = bk.date)
    ∧ (r.bookingType = none → editMergedType bk r = bk.bookingType)
    ∧ (r.startHour = none → editMergedStart bk r = bk.startHour)
    ∧ (r.duration = none → editMergedDur bk r = bk.duration)
    ∧ (∀ e, (editBooking db id r).2 = Except.error e → (editBooking db id r).1 = db) := by
  refine ⟨?_, ?_, ?_, ?_, ?_, ?_, ?_⟩
  · intro h
    simp [editBooking, h]
  · intro h
    simp [editMergedRoom, jsOrInt, h]
  · intro h
    simp [editMergedDate, jsOrStr, h]
  · intro h
    simp [editMergedType, jsOrStr, h]
  · intro h
    simp [editMergedStart, h]
  · intro h
    simp [editMergedDur, h]
  · intro e h
    exact editBooking_error_fst db id r e h

theorem edit_defaults_and_rollback_witness :
    editBooking dbEmpty "zz" rqNoneE = (dbEmpty, Except.error EditErr.notFound)
    ∧ editMergedRoom c4Bk rqNoneE = c4Bk.roomNumber
    ∧ editMergedStart c4Bk rqNoneE = c4Bk.startHour :=
  ⟨(edit_defaults_and_rollback dbEmpty "zz" rqNoneE c4Bk).1 rfl,
    (edit_defaults_and_rollback dbEmpty "zz" rqNoneE c4Bk).2.1 rfl,
    (edit_defaults_and_rollback dbEmpty "zz" rqNoneE c4Bk).2.2.2.2.1 rfl⟩

lemma cancel_absent (db : DB) (id cid : String) (h : findBooking db id = none) :
    cancelBooking db id cid = db := by
  unfold cancelBooking cancelOps
  rw [h]
  have hall : ∀ x ∈ db.bookings, ¬x.id = id := by simpa [findBooking] using h
  have hfix : db.bookings.filter (fun b => !(b.id == id)) = db.bookings := by
    rw [List.filter_eq_self]
    intro b hb
    simpa using hall b hb
  show { db with bookings := db.bookings.filter (fun b => !(b.id == id)) } = db
  rw [hfix]

/-- C6: cancelling an existing id writes exactly one Cancellation carrying
the booking's current attribution, room, date, type and price, and the
snapshot write precedes the delete (after the snapshot alone the booking
set is untouched, so a failed snapshot leaves the booking in place); the
booking is then removed, and cancelling the same id again — or any absent
id — succeeds as a no-op that writes nothing. -/
theorem cancel_props (db : DB) (id cid cid2 : String) (bk : Booking) :
    (findBooking db id = some bk →
      cancelOps db id cid = [CancelOp.snap (snapOf bk cid), CancelOp.remove id]
      ∧ (cancelBooking db id cid).cancellations = db.cancellations ++ [snapOf bk cid]
      ∧ (cancelBooking db id cid).bookings = db.bookings.filter (fun b => !(b.id == id))
      ∧ (snapOf bk cid).userId = bk.userId ∧ (snapOf bk cid).userName = bk.userName
      ∧ (snapOf bk cid).userPhone = bk.userPhone
      ∧ (snapOf bk cid).roomNumber = bk.roomNumber ∧ (snapOf bk cid).date = bk.date
      ∧ (snapOf bk cid).bookingType = bk.bookingType ∧ (snapOf bk cid).price = bk.price
      ∧ (applyCancelOps db ((cancelOps db id cid).take 1)).bookings = db.bookings
      ∧ findBooking (cancelBooking db id cid) id = none
      ∧ cancelBooking (cancelBooking db id cid) id cid2 = cancelBooking db id cid)
    ∧ (findBooking db id = none →
      cancelBooking db id cid = db ∧ cancelOps db id cid = [CancelOp.remove id]) := by
  constructor
  · intro h
    have hops : cancelOps db id cid = [CancelOp.snap (snapOf bk cid), CancelOp.remove id] := by
      unfold cancelOps
      rw [h]
    have hcb : cancelBooking db id cid =
        { db with bookings := db.bookings.filter (fun b => !(b.id == id)),
                  cancellations := db.cancellations ++ [snapOf bk cid] } := by
      unfold cancelBooking
      rw [hops]
      rfl
    have hgone : findBooking (cancelBooking db id cid) id = none := by
      rw [hcb]
      unfold findBooking
      rw [List.find?_eq_none]
      intro b hb
      have := (List.mem_filter.mp hb).2
      simpa using this
    refine ⟨hops, by rw [hcb], by rw [hcb], rfl, rfl, rfl, rfl, rfl, rfl, rfl, ?_, hgone, ?_⟩
    · rw [hops]
      rfl
    · exact cancel_absent (cancelBooking db id cid) id cid2 hgone
  · intro h
    refine ⟨cancel_absent db id cid h, ?_⟩
    unfold cancelOps
    rw [h]

/-- A stored booking cancelled in the concrete witness instance. -/
def c6Bk : Booking :=
  { id := "b9", roomNumber := 2, userId := "u6", userName := "M", userPhone := "911",
    date := "D2", startHour := some 30, duration := some 4, bookingType := "hourly",
    price := 800 }

/-- Store holding only that booking. -/
def c6Db : DB := { users := [], bookings := [c6Bk], cancellations := [] }

theorem cancel_props_witness :
    (cancelBooking c6Db "b9" "cc1").cancellations = c6Db.cancellations ++ [snapOf c6Bk "cc1"]
    ∧ cancelBooking dbEmpty "nope" "cc2" = dbEmpty :=
  ⟨((cancel_props c6Db "b9" "cc1" "cc3" c6Bk).1 rfl).2.1,
    ((cancel_props dbEmpty "nope" "cc2" "cc4" c6Bk).2 rfl).1⟩

/-- Abstract shape of both merge loops: a snapshot row that satisfies hit
causes an update-by-id write into the current state, counted once. -/
def idStep {α : Type} (idOf : α → String) (hit : α → Bool) (rew : α → α)
    (p : List α × Nat) (a : α) : List α × Nat :=
  if hit a then (p.1.map (fun x => if idOf x == idOf a then rew x else x), p.2 + 1) else p

/-- The rewrite merge applies to a matched booking row. -/
def mergeRewB (tgt tname phone : String) (x : Booking) : Booking :=
  { x with userId := tgt, userName := tname, userPhone := phone }

/-- The rewrite merge applies to a matched cancellation row. -/
def mergeRewC (tgt tname phone : String) (x : Cancellation) : Cancellation :=
  { x with userId := tgt, userName := tname, userPhone := phone }

lemma mergeStepB_eq_idStep (src tgt tname phone : String) :
    mergeStepB src tgt tname phone = idStep (fun b => b.id) (fun b => b.userId == src)
      (mergeRewB tgt tname phone) := by
  funext p b
  rfl

lemma mergeStepC_eq_idStep (src tgt tname phone : String) :
    mergeStepC src tgt tname phone = idStep (fun c => c.id) (fun c => c.userId == src)
      (mergeRewC tgt tname phone) := by
  funext p c
  rfl

lemma idStep_pos {α : Type} {idOf : α → String} {hit : α → Bool} {rew : α → α}
    {cur : List α} {n : Nat} {a : α} (h : hit a = true) :
    idStep idOf hit rew (cur, n) a =
      (cur.map (fun x => if idOf x == idOf a then rew x else x), n + 1) := by
  unfold idStep
  rw [if_pos h]

lemma idStep_neg {α : Type} {idOf : α → String} {hit : α → Bool} {rew : α → α}
    {cur : List α} {n : Nat} {a : α} (h : ¬hit a = true) :
    idStep idOf hit rew (cur, n) a = (cur, n) := by
  unfold idStep
  rw [if_neg h]

lemma idFold_snd {α : Type} (idOf : α → String) (hit : α → Bool) (rew : α → α)
    (snap : List α) : ∀ (cur : List α) (n : Nat),
    (snap.foldl (idStep idOf hit rew) (cur, n)).2 = n + snap.countP hit := by
  induction snap with
  | nil => intro cur n; simp
  | cons a rest ih =>
    intro cur n
    rw [List.foldl_cons, List.countP_cons]
    by_cases h : hit a = true
    · rw [idStep_pos h, ih]
      simp [h]
      omega
    · rw [idStep_neg h, ih]
      simp [h]

lemma idFold_fst_indep {α : Type} (idOf : α → String) (hit : α → Bool) (rew : α → α)
    (snap : List α) : ∀ (cur : List α) (n m : Nat),
    (snap.foldl (idStep idOf hit rew) (cur, n)).1 =
      (snap.foldl (idStep idOf hit rew) (cur, m)).1 := by
  induction snap with
  | nil => intro cur n m; rfl
  | cons a rest ih =>
    intro cur n m
    rw [List.foldl_cons, List.foldl_cons]
    by_cases h : hit a = true
    · rw [idStep_pos h, idStep_pos h]
      exact ih _ _ _
    · rw [idStep_neg h, idStep_neg h]
      exact ih _ _ _

lemma idFold_cons {α : Type} (idOf : α → String) (hit : α → Bool) (rew : α → α)
    (snap : List α) : ∀ (x : α) (cur : List α) (n : Nat),
    (∀ b ∈ snap, idOf b ≠ idOf x) →
    (snap.foldl (idStep idOf hit rew) (x :: cur, n)).1 =
        x :: (snap.foldl (idStep idOf hit rew) (cur, n)).1
      ∧ (snap.foldl (idStep idOf hit rew) (x :: cur, n)).2 =
        (snap.foldl (idStep idOf hit rew) (cur, n)).2 := by
  induction snap with
  | nil => intro x cur n _; exact ⟨rfl, rfl⟩
  | cons a rest ih =>
    intro x cur n hx
    rw [List.foldl_cons, List.foldl_cons]
    by_cases h : hit a = true
    · rw [idStep_pos h, idStep_pos h]
      have hxa : (idOf x == idOf a) = false :=
        beq_eq_false_iff_ne.mpr (Ne.symm (hx a (List.mem_cons_self a rest)))
      rw [List.map_cons, hxa]
      simp only [Bool.false_eq_true, if_false]
      exact ih x _ _ (fun b hb => hx b (List.mem_cons_of_mem a hb))
    · rw [idStep_neg h, idStep_neg h]
      exact ih x cur n (fun b hb => hx b (List.mem_cons_of_mem a hb))

lemma upd_map_id {α : Type} (idOf : α → String) (rew : α → α) (a : α) :
    ∀ (l : List α), (∀ x ∈ l, idOf x ≠ idOf a) →
    l.map (fun x => if idOf x == idOf a then rew x else x) = l := by
  intro l
  induction l with
  | nil => intro _; rfl
  | cons y rest ih =>
    intro h
    rw [List.map_cons,
      show (idOf y == idOf a) = false from
        beq_eq_false_iff_ne.mpr (h y (List.mem_cons_self y rest))]
    simp only [Bool.false_eq_true, if_false]
    rw [ih (fun x hx => h x (List.mem_cons_of_mem y hx))]

lemma idFold_map {α : Type} (idOf : α → String) (hit : α → Bool) (rew : α → α)
    (hrid : ∀ a, idOf (rew a) = idOf a) :
    ∀ (snap : List α), (snap.map idOf).Nodup →
    (snap.foldl (idStep idOf hit rew) (snap, 0)).1 =
      snap.map (fun a => if hit a then rew a else a) := by
  intro snap
  induction snap with
  | nil => intro _; rfl
  | cons a rest ih =>
    intro hnd
    rw [List.map_cons, List.nodup_cons] at hnd
    have hnotin : ∀ b ∈ rest, idOf b ≠ idOf a := by
      intro b hb heq
      exact hnd.1 (heq ▸ List.mem_map_of_mem idOf hb)
    have hndrest : (rest.map idOf).Nodup := hnd.2
    rw [List.foldl_cons]
    by_cases h : hit a = true
    · rw [idStep_pos h, List.map_cons, beq_self_eq_true]
      simp only [if_true]
      rw [upd_map_id idOf rew a rest hnotin]
      have hcons := idFold_cons idOf hit rew rest (rew a) rest 1
        (fun b hb => (hrid a) ▸ hnotin b hb)
      rw [hcons.1, idFold_fst_indep idOf hit rew rest rest 1 0, ih hndrest,
        List.map_cons, if_pos h]
    · rw [idStep_neg h]
      have hcons := idFold_cons idOf hit rew rest a rest 0 hnotin
      rw [hcons.1, ih hndrest, List.map_cons, if_neg h]

/-- First merge-witness booking: already owned by the target uB. -/
def mrgB1 : Booking :=
  { id := "m1", roomNumber := 1, userId := "uB", userName := "B", userPhone := "",
    date := "D", startHour := some 20, duration := some 4, bookingType := "hourly",
    price := 800 }

/-- Second merge-witness booking: owned by the source uA, in another room
at an overlapping time. -/
def mrgB2 : Booking :=
  { id := "m2", roomNumber := 2, userId := "uA", userName := "A", userPhone := "",
    date := "D", startHour := some 22, duration := some 2, bookingType := "hourly",
    price := 400 }

/-- A store where merging uA into uB creates a same-client cross-room
overlap. -/
def mrgDb : DB := { users := [], bookings := [mrgB1, mrgB2], cancellations := [] }

/-- C9: merging source into target rewrites exactly the rows whose userId
is the source to the target id/name/normalized phone, leaves every other
row (and the users table) unchanged, and returns the number of booking plus
cancellation rows that carried the source id; merge runs no admissibility
check — the concrete conjuncts show it gladly produces a same-client
cross-room overlap. -/
theorem merge_props (db : DB) (src tgt tname tphone : String)
    (hndB : (db.bookings.map (fun b => b.id)).Nodup)
    (hndC : (db.cancellations.map (fun c => c.id)).Nodup)
    (hne : src ≠ tgt) :
    (mergeClients db src tgt tname tphone).1.bookings =
      db.bookings.map (fun b => if b.userId == src then
        { b with userId := tgt, userName := tname, userPhone := normPhoneJs tphone } else b)
    ∧ (mergeClients db src tgt tname tphone).1.cancellations =
      db.cancellations.map (fun c => if c.userId == src then
        { c with userId := tgt, userName := tname, userPhone := normPhoneJs tphone } else c)
    ∧ (mergeClients db src tgt tname tphone).2 =
      db.bookings.countP (fun b => b.userId == src)
        + db.cancellations.countP (fun c => c.userId == src)
    ∧ (mergeClients db src tgt tname tphone).1.users = db.users
    ∧ (mergeClients mrgDb "uA" "uB" "B" "").1.bookings.countP
        (fun b => b.userId == "uB") = 2
    ∧ overlapTest (orZero mrgB2.startHour)
        (orZero mrgB2.startHour + orZero mrgB2.duration) mrgB1 = true := by
  refine ⟨?_, ?_, ?_, rfl, by decide, by decide⟩
  · show (db.bookings.foldl (mergeStepB src tgt tname (normPhoneJs tphone))
        (db.bookings, 0)).1 = _
    rw [mergeStepB_eq_idStep]
    exact idFold_map (fun b : Booking => b.id) (fun b : Booking => b.userId == src)
      (mergeRewB tgt tname (normPhoneJs tphone)) (fun _ => rfl) db.bookings hndB
  · show (db.cancellations.foldl (mergeStepC src tgt tname (normPhoneJs tphone))
        (db.cancellations, _)).1 = _
    rw [mergeStepC_eq_idStep,
      idFold_fst_indep (fun c : Cancellation => c.id) (fun c : Cancellation => c.userId == src)
        (mergeRewC tgt tname (normPhoneJs tphone)) db.cancellations db.cancellations _ 0]
    exact idFold_map (fun c : Cancellation => c.id) (fun c : Cancellation => c.userId == src)
      (mergeRewC tgt tname (normPhoneJs tphone)) (fun _ => rfl) db.cancellations hndC
  · show (db.cancellations.foldl (mergeStepC src tgt tname (normPhoneJs tphone))
        (db.cancellations,
          (db.bookings.foldl (mergeStepB src tgt tname (normPhoneJs tphone))
            (db.bookings, 0)).2)).2 = _
    rw [mergeStepB_eq_idStep, mergeStepC_eq_idStep,
      idFold_snd (fun c : Cancellation => c.id) (fun c : Cancellation => c.userId == src)
        (mergeRewC tgt tname (normPhoneJs tphone)) db.cancellations db.cancellations _,
      idFold_snd (fun b : Booking => b.id) (fun b : Booking => b.userId == src)
        (mergeRewB tgt tname (normPhoneJs tphone)) db.bookings db.bookings 0]
    omega

theorem merge_props_witness :
    (mergeClients mrgDb "uA" "uB" "B" "").2 =
      mrgDb.bookings.countP (fun b => b.userId == "uA")
        + mrgDb.cancellations.countP (fun c => c.userId == "uA") :=
  (merge_props mrgDb "uA" "uB" "B" "" (by decide) (by decide) (by decide)).2.2.1

/-- A stored booking whose phone matches the proposal below but whose
userId differs. -/
def phB : Booking :=
  { id := "ph1", roomNumber := 1, userId := "u1", userName := "P", userPhone := "911",
    date := "D", startHour := some 20, duration := some 4, bookingType := "hourly",
    price := 800 }

/-- Store holding only that booking. -/
def phDb : DB := { users := [], bookings := [phB], cancellations := [] }

/-- A proposal from a different userId with the same phone, overlapping in
another room. -/
def phReq : InsertBooking :=
  { roomNumber := 2, userId := "u2", userName := "Q", userPhone := "911", date := "D",
    startHour := some 22, duration := some 2, bookingType := "hourly", price := 400 }

/-- The same proposal with an empty phone. -/
def phReqNoPhone : InsertBooking := { phReq with userPhone := "" }

/-- C10: in create and edit, the cross-room client-conflict set contains a
same-date booking exactly when its userId matches, or the proposal's phone
is non-empty and the stored phone equals it; with an empty phone only the
userId matches.  The closed conjuncts show a booking of a different userId
but equal phone causing a rejection, and the same proposal accepted once
its phone is empty. -/
theorem client_conflict_set_props (db : DB) (d : InsertBooking) (self : Booking)
    (b : Booking) :
    (clientFilterCreate d b = true ↔
      (b.userId = d.userId ∨ (d.userPhone ≠ "" ∧ b.userPhone = d.userPhone)))
    ∧ (d.userPhone = "" → (clientFilterCreate d b = true ↔ b.userId = d.userId))
    ∧ (clientFilterEdit self b = true ↔
      (b.id ≠ self.id ∧ (b.userId = self.userId ∨
        (self.userPhone ≠ "" ∧ b.userPhone = self.userPhone))))
    ∧ (b ∈ getBookingsByDate db d.date ↔ b ∈ db.bookings ∧ b.date = d.date)
    ∧ (createBooking phDb "p1" phReq).2 = Except.error msgClientTimeConflict
    ∧ (∃ bb, (createBooking phDb "p2" phReqNoPhone).2 = Except.ok bb) := by
  refine ⟨?_, ?_, ?_, ?_, rfl, ⟨_, rfl⟩⟩
  · simp [clientFilterCreate]
  · intro h
    simp [clientFilterCreate, h]
  · simp [clientFilterEdit, and_assoc]
  · simp [getBookingsByDate, List.mem_filter]

theorem client_conflict_set_props_witness :
    clientFilterCreate phReqNoPhone phB = true ↔ phB.userId = phReqNoPhone.userId :=
  (client_conflict_set_props phDb phReqNoPhone phB phB).2.1 rfl

/-- A walk-in booking named Anna with no stored phone. -/
def c8B : Booking :=
  { id := "b1", roomNumber := 1, userId := "walk_in_a", userName := "Anna",
    userPhone := "", date := "D", startHour := some 20, duration := some 2,
    bookingType := "hourly", price := 400 }

/-- A walk-in cancellation with the same name and no stored phone. -/
def c8C : Cancellation :=
  { id := "c1", userId := "walk_in_b", userName := "Anna", userPhone := "",
    roomNumber := 1, date := "D", bookingType := "hourly", price := 400 }

/-- Store holding that booking and cancellation. -/
def c8Db : DB := { users := [], bookings := [c8B], cancellations := [c8C] }

/-- A walk-in booking whose unnormalized phone makes it the canonical
member of the Anna group. -/
def c8S1 : Booking :=
  { id := "b1", roomNumber := 1, userId := "walk_in_a", userName := "Anna",
    userPhone := "89991112233", date := "D", startHour := some 20, duration := some 2,
    bookingType := "hourly", price := 400 }

/-- A second walk-in booking of the same name with its own unnormalized
phone: the stale-snapshot phone pass restores its old identity right after
the group pass canonicalized it. -/
def c8S2 : Booking :=
  { id := "b2", roomNumber := 2, userId := "walk_in_b", userName := "Anna",
    userPhone := "81112223344", date := "D", startHour := some 22, duration := some 2,
    bookingType := "hourly", price := 400 }

/-- Store holding the two stale-phone bookings. -/
def c8SDb : DB := { users := [], bookings := [c8S1, c8S2], cancellations := [] }

/-- C8 counterexample: on c8Db a first dedup run reports one update, and a
second run over the resulting state again reports one update — the matched
cancellation has a falsy phone, so lines 817-820 rewrite and count it on
every run; the second run's updatedCount is not 0.  On c8SDb the
stale-snapshot phone pass undoes the group pass's reassignment of b2, so
the second run redoes it and the state after the second run differs from
the state after the first. -/
theorem dedup_idem_cex :
    ((cleanupDuplicates c8Db).2 = 1
      ∧ (cleanupDuplicates (cleanupDuplicates c8Db).1).2 = 1
      ∧ (cleanupDuplicates (cleanupDuplicates c8Db).1).2 ≠ 0)
    ∧ ((cleanupDuplicates (cleanupDuplicates c8SDb).1).2 ≠ 0
      ∧ (cleanupDuplicates (cleanupDuplicates c8SDb).1).1 ≠ (cleanupDuplicates c8SDb).1) := by
  refine ⟨⟨by decide, by decide, by decide⟩, ⟨by decide, by decide⟩⟩

lemma pairFold_mono {β γ : Type} (f : γ × Nat → β → γ × Nat)
    (hm : ∀ p a, p.2 ≤ (f p a).2) :
    ∀ (l : List β) (p : γ × Nat), p.2 ≤ (l.foldl f p).2 := by
  intro l
  induction l with
  | nil => intro p; exact le_refl _
  | cons a rest ih => intro p; exact le_trans (hm p a) (ih (f p a))

lemma pairFold_fix {β γ : Type} (f : γ × Nat → β → γ × Nat)
    (hm : ∀ p a, p.2 ≤ (f p a).2)
    (hf : ∀ p a, (f p a).2 = p.2 → f p a = p) :
    ∀ (l : List β) (p : γ × Nat), (l.foldl f p).2 = p.2 → l.foldl f p = p := by
  intro l
  induction l with
  | nil => intro p _; rfl
  | cons a rest ih =>
    intro p h
    rw [List.foldl_cons] at h ⊢
    have h1 : (f p a).2 = p.2 :=
      le_antisymm (h ▸ pairFold_mono f hm rest (f p a)) (hm p a)
    rw [hf p a h1] at h ⊢
    exact ih p h

lemma dedupGroupInner_mono (cid cname cphone : String) :
    ∀ (p : List Booking × Nat) (b : Booking),
      p.2 ≤ (dedupGroupInner cid cname cphone p b).2 := by
  intro p b
  unfold dedupGroupInner
  split
  · exact le_refl _
  · exact Nat.le_succ _

lemma dedupGroupInner_fix (cid cname cphone : String) :
    ∀ (p : List Booking × Nat) (b : Booking),
      (dedupGroupInner cid cname cphone p b).2 = p.2 →
      dedupGroupInner cid cname cphone p b = p := by
  intro p b
  unfold dedupGroupInner
  split
  · intro _; rfl
  · intro hc
    exact absurd hc (Nat.succ_ne_self p.2)

lemma dedupGroupStep_mono :
    ∀ (st : List Booking × Nat) (g : String × List Booking),
      st.2 ≤ (dedupGroupStep st g).2 := by
  intro st g
  unfold dedupGroupStep
  split
  · exact le_refl _
  · exact pairFold_mono _ (dedupGroupInner_mono _ _ _) g.2 st

lemma dedupGroupStep_fix :
    ∀ (st : List Booking × Nat) (g : String × List Booking),
      (dedupGroupStep st g).2 = st.2 → dedupGroupStep st g = st := by
  intro st g
  unfold dedupGroupStep
  split
  · intro _; rfl
  · intro hc
    exact pairFold_fix _ (dedupGroupInner_mono _ _ _) (dedupGroupInner_fix _ _ _) g.2 st hc

lemma dedupPhoneStep_mono :
    ∀ (p : List Booking × Nat) (b : Booking), p.2 ≤ (dedupPhoneStep p b).2 := by
  intro p b
  unfold dedupPhoneStep
  split
  · exact Nat.le_succ _
  · exact le_refl _

lemma dedupPhoneStep_fix :
    ∀ (p : List Booking × Nat) (b : Booking),
      (dedupPhoneStep p b).2 = p.2 → dedupPhoneStep p b = p := by
  intro p b
  unfold dedupPhoneStep
  split
  · intro hc
    exact absurd hc (Nat.succ_ne_self p.2)
  · intro _; rfl

lemma cancInner_mono (canonical : Booking) :
    ∀ (p : List Cancellation × Nat) (c : Cancellation),
      p.2 ≤ (cancInner canonical p c).2 := by
  intro p c
  unfold cancInner
  split
  · split
    · exact Nat.le_succ _
    · exact le_refl _
  · exact Nat.le_succ _

lemma cancInner_fix (canonical : Booking) :
    ∀ (p : List Cancellation × Nat) (c : Cancellation),
      (cancInner canonical p c).2 = p.2 → cancInner canonical p c = p := by
  intro p c
  unfold cancInner
  split
  · split
    · intro hc
      exact absurd hc (Nat.succ_ne_self p.2)
    · intro _; rfl
  · intro hc
    exact absurd hc (Nat.succ_ne_self p.2)

lemma cancPassStep_mono (gs : List (String × List Booking)) :
    ∀ (p : List Cancellation × Nat) (g : String × List Cancellation),
      p.2 ≤ (cancPassStep gs p g).2 := by
  intro p g
  unfold cancPassStep
  split
  · exact le_refl _
  · exact pairFold_mono _ (cancInner_mono _) g.2 p

lemma cancPassStep_fix (gs : List (String × List Booking)) :
    ∀ (p : List Cancellation × Nat) (g : String × List Cancellation),
      (cancPassStep gs p g).2 = p.2 → cancPassStep gs p g = p := by
  intro p g
  unfold cancPassStep
  split
  · intro _; rfl
  · intro hc
    exact pairFold_fix _ (cancInner_mono _) (cancInner_fix _) g.2 p hc

lemma cleanupDuplicates_eq (db : DB) :
    cleanupDuplicates db =
      ({ db with
          bookings := (phonePass (dedupGroupPass db.bookings (buildGroupsB db.bookings)).1
            db.bookings (dedupGroupPass db.bookings (buildGroupsB db.bookings)).2).1
          cancellations := (cancPass db.cancellations (buildGroupsB db.bookings)
            (buildGroupsC db.cancellations)
            (phonePass (dedupGroupPass db.bookings (buildGroupsB db.bookings)).1
              db.bookings (dedupGroupPass db.bookings (buildGroupsB db.bookings)).2).2).1 },
        (cancPass db.cancellations (buildGroupsB db.bookings)
          (buildGroupsC db.cancellations)
          (phonePass (dedupGroupPass db.bookings (buildGroupsB db.bookings)).1
            db.bookings (dedupGroupPass db.bookings (buildGroupsB db.bookings)).2).2).2) :=
  rfl

/-- C8 amended: dedup is not idempotent in general (see the counterexample:
a rewritten cancellation with an empty phone is counted on every run, and
the stale-snapshot phone pass can undo a same-run canonicalization), but a
run that reports zero updates has changed nothing, so any state on which
dedup reports zero updates is a fixed point and every later run also
reports zero. -/
theorem dedup_zero_fixed (db : DB) (h : (cleanupDuplicates db).2 = 0) :
    (cleanupDuplicates db).1 = db
    ∧ cleanupDuplicates ((cleanupDuplicates db).1) = (db, 0) := by
  have h3 : (cancPass db.cancellations (buildGroupsB db.bookings)
      (buildGroupsC db.cancellations)
      (phonePass (dedupGroupPass db.bookings (buildGroupsB db.bookings)).1
        db.bookings (dedupGroupPass db.bookings (buildGroupsB db.bookings)).2).2).2 = 0 := by
    rw [cleanupDuplicates_eq] at h
    exact h
  have h2 : (phonePass (dedupGroupPass db.bookings (buildGroupsB db.bookings)).1
      db.bookings (dedupGroupPass db.bookings (buildGroupsB db.bookings)).2).2 = 0 :=
    Nat.le_zero.mp (h3 ▸ pairFold_mono _ (cancPassStep_mono (buildGroupsB db.bookings))
      (buildGroupsC db.cancellations) (db.cancellations, _))
  have h1 : (dedupGroupPass db.bookings (buildGroupsB db.bookings)).2 = 0 :=
    Nat.le_zero.mp (h2 ▸ pairFold_mono _ dedupPhoneStep_mono db.bookings
      (dedupGroupPass db.bookings (buildGroupsB db.bookings)))
  have f1 : dedupGroupPass db.bookings (buildGroupsB db.bookings) = (db.bookings, 0) :=
    pairFold_fix _ dedupGroupStep_mono dedupGroupStep_fix (buildGroupsB db.bookings)
      (db.bookings, 0) h1
  rw [f1] at h2 h3
  dsimp only at h2 h3
  have f2 : phonePass db.bookings db.bookings 0 = (db.bookings, 0) :=
    pairFold_fix _ dedupPhoneStep_mono dedupPhoneStep_fix db.bookings (db.bookings, 0) h2
  rw [f2] at h3
  dsimp only at h3
  have f3 : cancPass db.cancellations (buildGroupsB db.bookings)
      (buildGroupsC db.cancellations) 0 = (db.cancellations, 0) :=
    pairFold_fix _ (cancPassStep_mono (buildGroupsB db.bookings))
      (cancPassStep_fix (buildGroupsB db.bookings)) (buildGroupsC db.cancellations)
      (db.cancellations, 0) h3
  have hfull : cleanupDuplicates db = (db, 0) := by
    rw [cleanupDuplicates_eq, f1]
    dsimp only
    rw [f2]
    dsimp only
    rw [f3]
  refine ⟨by rw [hfull], ?_⟩
  rw [hfull]
  exact hfull

theorem dedup_zero_fixed_witness :
    (cleanupDuplicates dbEmpty).1 = dbEmpty
    ∧ cleanupDuplicates ((cleanupDuplicates dbEmpty).1) = (dbEmpty, 0) :=
  dedup_zero_fixed dbEmpty rfl

end Bugalteria
